import Mathlib

/-!
Shallow embedding of the dns-renew renewal agent (Rust sources under
src/: config.rs, dns.rs, ip.rs, query.rs, update.rs, main.rs).

Network and filesystem effects are made explicit: every fallible
provider call is represented by an `Except String` value supplied as an
input (an oracle for what the call returned), and the per-name state
file is threaded as an `Option NameState` value.  Time is epoch
seconds as `Nat`.  Machine integers of the source (u64 epoch seconds,
u32 ttl, u16 ports) stay well below their bounds in every scenario
considered here, so they are embedded as `Nat`.
-/

namespace DnsRenew

/-- Model of `std::net::IpAddr`: either four IPv4 octets or eight
16-bit IPv6 groups. -/
inductive IpAddr where
  | v4 (a b c d : Nat)
  | v6 (a b c d e f g h : Nat)
deriving DecidableEq, Repr

/-- Model of `IpAddr::is_ipv4`. -/
def IpAddr.is_ipv4 : IpAddr → Bool
  | .v4 _ _ _ _ => true
  | .v6 _ _ _ _ _ _ _ _ => false

/-- Model of `IpAddr::is_ipv6`. -/
def IpAddr.is_ipv6 : IpAddr → Bool
  | .v4 _ _ _ _ => false
  | .v6 _ _ _ _ _ _ _ _ => true

/-- Lowercase hex rendering of one 16-bit IPv6 group, no leading
zeros, as produced by `core::fmt::LowerHex`. -/
def hexGroupToString (n : Nat) : String :=
  Nat.toDigits 16 n |> String.mk

/-- Scan for `longestZeroRun`: position, best run so far and current
run are threaded through the groups. -/
def longestZeroRunGo : List Nat → Nat → Nat × Nat → Nat × Nat → Nat × Nat
  | [], _, best, cur => if cur.2 > best.2 then cur else best
  | g :: rest, i, best, cur =>
    if g = 0 then
      longestZeroRunGo rest (i + 1) best
        (if cur.2 = 0 then (i, 1) else (cur.1, cur.2 + 1))
    else
      longestZeroRunGo rest (i + 1) (if cur.2 > best.2 then cur else best) (0, 0)

/-- Longest run of consecutive zero groups in an IPv6 address, as
`(start, length)`; Rust's `Ipv6Addr` `Display` compresses this run
with "::" when its length is at least 2.  Scans left to right and
keeps the leftmost longest run, like the source. -/
def longestZeroRun (groups : List Nat) : Nat × Nat :=
  longestZeroRunGo groups 0 (0, 0) (0, 0)

/-- Model of `Display` for `std::net::IpAddr`: dotted quad for v4;
colon-hex with longest-zero-run "::" compression for v6. -/
def ipToString : IpAddr → String
  | .v4 a b c d =>
    toString a ++ (".") ++ toString b ++ (".") ++ toString c ++ (".") ++ toString d
  | .v6 a b c d e f g h =>
    let groups := [a, b, c, d, e, f, g, h]
    let (start, len) := longestZeroRun groups
    if len ≥ 2 then
      let before := (groups.take start).map hexGroupToString
      let after := (groups.drop (start + len)).map hexGroupToString
      String.intercalate (":") before ++ ("::") ++ String.intercalate (":") after
    else
      String.intercalate (":") (groups.map hexGroupToString)

/-- Split a character list at every occurrence of the separator, the
way `str::split` does (structural, so that parsing evaluates by
reduction). -/
def splitOnChar (sep : Char) : List Char → List (List Char)
  | [] => [[]]
  | c :: rest =>
    if c = sep then [] :: splitOnChar sep rest
    else
      match splitOnChar sep rest with
      | g :: gs => (c :: g) :: gs
      | [] => [[c]]

/-- Value of a decimal digit string. -/
def digitsVal (cs : List Char) : Nat :=
  cs.foldl (fun acc c => acc * 10 + (c.toNat - ('0').toNat)) 0

/-- Model of the decimal-octet parsing rules of `Ipv4Addr::from_str`:
one to three decimal digits, value at most 255, no leading zero. -/
def parse_octet (cs : List Char) : Option Nat :=
  if cs = [] ∨ cs.length > 3 then none
  else if ¬ cs.all Char.isDigit then none
  else if cs.head? = some '0' ∧ cs.length > 1 then none
  else if digitsVal cs ≤ 255 then some (digitsVal cs) else none

/-- Model of `Ipv4Addr::from_str`: exactly four octets separated by
dots. -/
def parse_ipv4 (cs : List Char) : Option IpAddr :=
  match splitOnChar ('.') cs with
  | [a, b, c, d] => do
    let a' ← parse_octet a
    let b' ← parse_octet b
    let c' ← parse_octet c
    let d' ← parse_octet d
    pure (.v4 a' b' c' d')
  | _ => none

/-- Value of one hex digit character. -/
def hexDigitVal (c : Char) : Nat :=
  if c.isDigit then c.toNat - ('0').toNat
  else if 'a' ≤ c ∧ c ≤ 'f' then c.toNat - ('a').toNat + 10
  else c.toNat - ('A').toNat + 10

/-- Is the character a hex digit. -/
def isHexDigit (c : Char) : Bool :=
  c.isDigit || ('a' ≤ c && c ≤ 'f') || ('A' ≤ c && c ≤ 'F')

/-- Model of the group parsing rules of `Ipv6Addr::from_str`: one to
four hex digits. -/
def parse_hex_group (cs : List Char) : Option Nat :=
  if cs.length = 0 ∨ cs.length > 4 then none
  else if cs.all isHexDigit then
    some (cs.foldl (fun acc c => acc * 16 + hexDigitVal c) 0)
  else none

/-- Split at the first "::", when present. -/
def breakDoubleColon : List Char → Option (List Char × List Char)
  | [] => none
  | ':' :: ':' :: rest => some ([], rest)
  | c :: rest => (breakDoubleColon rest).map (fun p => (c :: p.1, p.2))

/-- Does the character list contain a "::" occurrence. -/
def containsDoubleColon : List Char → Bool
  | ':' :: ':' :: _ => true
  | _ :: rest => containsDoubleColon rest
  | [] => false

/-- Build an address from exactly eight groups. -/
def groupsToV6 : List Nat → Option IpAddr
  | [a, b, c, d, e, f, g, h] => some (.v6 a b c d e f g h)
  | _ => none

/-- Model of `Ipv6Addr::from_str` (colon-hex with at most one "::"
compression; the trailing-embedded-IPv4 form is outside the scenarios
modelled here and parses as none). -/
def parse_ipv6 (cs : List Char) : Option IpAddr :=
  match breakDoubleColon cs with
  | none =>
    match (splitOnChar (':') cs).mapM parse_hex_group with
    | some gs => groupsToV6 gs
    | none => none
  | some (l, r) =>
    if containsDoubleColon r then none
    else
      let lparts := if l = [] then [] else splitOnChar (':') l
      let rparts := if r = [] then [] else splitOnChar (':') r
      match lparts.mapM parse_hex_group, rparts.mapM parse_hex_group with
      | some lgs, some rgs =>
        if lgs.length + rgs.length ≤ 7 then
          groupsToV6 (lgs ++ List.replicate (8 - lgs.length - rgs.length) 0 ++ rgs)
        else none
      | _, _ => none

/-- Model of `IpAddr::from_str`: try the v4 form, then the v6 form
(the two grammars are disjoint). -/
def parse_ip_addr (s : String) : Option IpAddr :=
  (parse_ipv4 s.toList).orElse (fun _ => parse_ipv6 s.toList)

/-- Model of `str::trim` for the ASCII whitespace the reflector bodies
can carry. -/
def trimAsciiWhitespace (s : String) : String :=
  let cs := s.toList.dropWhile Char.isWhitespace
  String.mk (cs.reverse.dropWhile Char.isWhitespace).reverse

/-- Model of `str::to_uppercase` for the ASCII method names the
configuration carries. -/
def toUpperAscii (s : String) : String :=
  String.mk (s.toList.map Char.toUpper)

/-! Configuration data model, from config.rs.  `Duration` values are
embedded as `Nat` milliseconds; paths as `String`. -/

/-- Model of `config::HttpBasicAuthCredential` (config.rs). -/
structure HttpBasicAuthCredential where
  username : String
  password : Option String
deriving DecidableEq, Repr

/-- Model of `config::UpdateCredential` (config.rs): basic auth or a
bearer token. -/
inductive UpdateCredential where
  | HttpBasicAuth (credential : HttpBasicAuthCredential)
  | HttpBearerToken (token : String)
deriving DecidableEq, Repr

/-- Model of `config::Config` (config.rs); the credential table is an
association list standing for the `HashMap`. -/
structure Config where
  name_conf_dir : String
  name_state_dir : String
  update_credentials : List (String × UpdateCredential)
deriving DecidableEq, Repr

/-- Lookup in the credential table, standing for `HashMap::get`. -/
def Config.get_credential (c : Config) (k : String) : Option UpdateCredential :=
  (c.update_credentials.find? (fun p => p.1 = k)).map (·.2)

/-- Model of `config::UpdateProviderType` exactly as the enum is
declared in config.rs (lines 62-76): two variants only. -/
inductive UpdateProviderType where
  | HttpGet (credential : Option String) (url_template : String)
  | HttpPlainBody (credential : Option String) (url : String) (method : String)
      (content_type : String) (body_template : String)
deriving DecidableEq, Repr

/-- Model of `config::DnsQueryParams` (config.rs). -/
structure DnsQueryParams where
  name_server_host : String
  name_server_port : Option Nat
  timeout : Option Nat
  use_tcp : Option Bool
deriving DecidableEq, Repr

/-- Model of `config::DohGoogleQueryParams` (config.rs). -/
structure DohGoogleQueryParams where
  url : String
  name_key : String
  timeout : Option Nat
deriving DecidableEq, Repr

/-- Model of `config::DohIetfQueryParams` (config.rs). -/
structure DohIetfQueryParams where
  url : String
  timeout : Option Nat
deriving DecidableEq, Repr

/-- Model of `config::DotQueryParams` (config.rs). -/
structure DotQueryParams where
  name_server_host : String
  name_server_port : Option Nat
  timeout : Option Nat
deriving DecidableEq, Repr

/-- Model of `config::QueryProviderType` (config.rs). -/
inductive QueryProviderType where
  | Dns (params : DnsQueryParams)
  | DohGoogle (params : DohGoogleQueryParams)
  | DohIetf (params : DohIetfQueryParams)
  | Dot (params : DotQueryParams)
deriving DecidableEq, Repr

/-- Model of `config::IpProviderType` (config.rs). -/
inductive IpProviderType where
  | Static (ip : IpAddr)
  | IfconfigIo (url : String) (timeout : Option Nat)
  | SslipIo (name_server_host : String) (name_server_port : Option Nat)
      (name : String) (timeout : Option Nat)
deriving DecidableEq, Repr

/-- Model of `config::NameProvidersConf` (config.rs). -/
structure NameProvidersConf where
  update_provider_type : UpdateProviderType
  query_provider_type : QueryProviderType
  ip_provider_type : IpProviderType
  enabled : Bool
deriving DecidableEq, Repr

/-- Model of `config::NameConf` (config.rs); `renew_interval` in whole
seconds (the granularity at which main.rs consumes it). -/
structure NameConf where
  name : String
  renew_interval : Nat
  shared : Bool
  v4 : Option NameProvidersConf
  v6 : Option NameProvidersConf
deriving DecidableEq, Repr

/-- Model of `config::NameState` (config.rs): the persisted per-name
schedule record, `next` in epoch seconds. -/
structure NameState where
  name : String
  next : Nat
deriving DecidableEq, Repr

/-! Renewal orchestrator, from main.rs.  `SystemTime::now()` is the
explicit `now` argument (epoch seconds). -/

/-- Model of `main::next` (main.rs lines 98-107): the fresh deadline is
the current time plus the renew interval, in epoch seconds.  The
`checked_add` / `duration_since` failure paths cannot fire on `Nat`. -/
def next (now : Nat) (interval : Nat) : Nat :=
  now + interval

/-- Model of `main::read_state` (main.rs lines 109-142) after the TOML
file has been read: `stored` is the parsed content of the state file
when it exists.  Returns `none` when the renewal is not due, otherwise
the fresh `NameState` to use for this cycle. -/
def read_state (stored : Option NameState) (name_conf : NameConf) (now : Nat) :
    Option NameState :=
  match stored with
  | some state =>
    if state.name ≠ name_conf.name then
      some ⟨name_conf.name, next now name_conf.renew_interval⟩
    else if state.next > now then
      none
    else
      some ⟨name_conf.name, next now name_conf.renew_interval⟩
  | none => some ⟨name_conf.name, next now name_conf.renew_interval⟩

/-- The per-family effective provider configuration computed inline in
`main::renew_name` (main.rs lines 169-191): the family's own block,
`or_else` the other family's block when `shared`, then `filter` on
`enabled`. -/
def effective_providers_conf (own other : Option NameProvidersConf) (shared : Bool) :
    Option NameProvidersConf :=
  Option.filter (fun c => c.enabled) (own.orElse (fun _ => if shared then other else none))

/-- Outcomes of the fallible calls made inside `main::renew` for one
family, in call order: the two infallible-by-value provider
constructions are still `Result`s at the call sites and are modelled
as such. -/
structure RenewOracle where
  init_query_provider : Except String Unit
  query : Except String (List IpAddr)
  init_ip_provider : Except String Unit
  ip_query : Except String IpAddr
  init_update_provider : Except String Unit
  update : Except String Bool

/-- Result of one `main::renew` call together with whether the update
provider's `update` method was invoked. -/
structure RenewOutcome where
  result : Except String Bool
  update_invoked : Bool

/-- Model of `main::renew` (main.rs lines 213-237): construct the
query provider, query the published addresses, construct the address
provider, fetch the current address; if the published set contains it,
return false without touching the update provider; otherwise construct
the update provider and run its update. -/
def renew (o : RenewOracle) : RenewOutcome :=
  match o.init_query_provider with
  | .error e => ⟨.error e, false⟩
  | .ok _ =>
    match o.query with
    | .error e => ⟨.error e, false⟩
    | .ok ips =>
      match o.init_ip_provider with
      | .error e => ⟨.error e, false⟩
      | .ok _ =>
        match o.ip_query with
        | .error e => ⟨.error e, false⟩
        | .ok ip =>
          if ips.contains ip then ⟨.ok false, false⟩
          else
            match o.init_update_provider with
            | .error e => ⟨.error e, false⟩
            | .ok _ =>
              match o.update with
              | .error e => ⟨.error e, true⟩
              | .ok b => ⟨.ok b, true⟩

/-- Result of one `main::renew_name` call: the `Result<Option<String>>`
value and the content of the per-name state file after the call. -/
structure RenewNameResult where
  result : Except String (Option String)
  state_file : Option NameState

/-- Model of `main::renew_name` (main.rs lines 144-210) from the point
where the `NameConf` has been parsed: read the state, resolve the two
effective per-family provider blocks, renew each present block (the
`?` on `renew` aborts before the write), then write the fresh state
and report the name iff an update happened. -/
def renew_name (stored : Option NameState) (name_conf : NameConf) (now : Nat)
    (o4 o6 : RenewOracle) : RenewNameResult :=
  match read_state stored name_conf now with
  | none => ⟨.ok none, stored⟩
  | some name_state =>
    match (match effective_providers_conf name_conf.v4 name_conf.v6 name_conf.shared with
           | some _ => (renew o4).result
           | none => .ok false) with
    | .error e => ⟨.error e, stored⟩
    | .ok u4 =>
      match (match effective_providers_conf name_conf.v6 name_conf.v4 name_conf.shared with
             | some _ => (renew o6).result
             | none => .ok false) with
      | .error e => ⟨.error e, stored⟩
      | .ok u6 =>
        ⟨.ok (if !(u4 || u6) then none else some name_conf.name), some name_state⟩

/-! DNS client, from dns.rs.  Address resolution and the three wire
transports are the I/O boundary: the resolved candidate list is an
input, and one transport attempt against one candidate is an oracle
`SocketAddr → Except String DnsResponse` (the transport choice, the
bind address and the request message are fixed for the whole loop and
are captured inside the oracle). -/

/-- Model of `std::net::SocketAddr`. -/
structure SocketAddr where
  ip : IpAddr
  port : Nat
deriving DecidableEq, Repr

/-- Model of `SocketAddr::is_ipv6`. -/
def SocketAddr.is_ipv6 (a : SocketAddr) : Bool := a.ip.is_ipv6

/-- Model of `SocketAddr::is_ipv4`. -/
def SocketAddr.is_ipv4 (a : SocketAddr) : Bool := a.ip.is_ipv4

/-- Record data of one DNS answer, restricted to the record types the
program inspects (`RData::A`, `RData::AAAA`, `RData::TXT`); every
other record type is `other`.  TXT character-string chunks are already
UTF-8 decoded in the model. -/
inductive RData where
  | A (ip : IpAddr)
  | AAAA (ip : IpAddr)
  | TXT (chunks : List String)
  | other
deriving DecidableEq, Repr

/-- One record of a DNS answer section; `data` mirrors
`Record::data(&self) -> Option<&RData>`. -/
structure DnsAnswer where
  data : Option RData
deriving DecidableEq, Repr

/-- Model of `hickory_proto::xfer::DnsResponse`, reduced to the answer
section, which is all the program reads from it. -/
structure DnsResponse where
  answers : List DnsAnswer
deriving DecidableEq, Repr

/-- The response built by `DnsResponse::from_message(Message::new())`
in `DnsClient::do_query`: no answers. -/
def emptyDnsResponse : DnsResponse := ⟨[]⟩

/-- Model of `config/dns::DnsClient` (dns.rs lines 84-110). -/
structure DnsClient where
  host : String
  port : Option Nat
  timeout : Nat
  is_udp : Bool
  is_tls : Bool
deriving DecidableEq, Repr

/-- Model of `DnsClient::new`: rejects the UDP+TLS combination. -/
def DnsClient.new (host : String) (port : Option Nat) (timeout : Nat)
    (is_udp is_tls : Bool) : Except String DnsClient :=
  if is_udp && is_tls then .error ("no support of udp with tls")
  else .ok ⟨host, port, timeout, is_udp, is_tls⟩

/-- The candidate filter in `DnsClient::do_query` (dns.rs lines
122-126): keep v6 addresses, v4 addresses, or everything. -/
def family_filter (is_via_v6 : Option Bool) (addr : SocketAddr) : Bool :=
  match is_via_v6 with
  | some true => addr.is_ipv6
  | some false => addr.is_ipv4
  | none => true

/-- The candidate loop of `DnsClient::do_query` (dns.rs lines
139-161) with its `has_tried` flag: first transport success
short-circuits; a failure moves to the next candidate. -/
def query_loop (attempt : SocketAddr → Except String DnsResponse) (name : String) :
    List SocketAddr → Bool → Except String DnsResponse
  | [], has_tried =>
    if has_tried then .error ("failed to resolve name[" ++ name ++ "]")
    else .ok emptyDnsResponse
  | addr :: rest, _ =>
    match attempt addr with
    | .ok response => .ok response
    | .error _ => query_loop attempt name rest true

/-- Model of `DnsClient::do_query` (dns.rs lines 112-167) from the
point where `to_socket_addrs` produced `addrs`: filter the candidates
by family, try them in order, and distinguish "all attempts failed"
(error naming the query target) from "nothing was attempted" (empty
success response). -/
def do_query (addrs : List SocketAddr) (is_via_v6 : Option Bool)
    (attempt : SocketAddr → Except String DnsResponse) (name : String) :
    Except String DnsResponse :=
  query_loop attempt name (addrs.filter (family_filter is_via_v6)) false

/-! Query providers, from query.rs. -/

/-- Model of `query::dohgoogle::DohGoogleAnswer` (query.rs). -/
structure DohGoogleAnswer where
  data : IpAddr
deriving DecidableEq, Repr

/-- Model of `query::dohgoogle::DohGoogleResponse` (query.rs): the
parsed JSON body, `Answer` being nullable. -/
structure DohGoogleResponse where
  status : Int
  answer : Option (List DohGoogleAnswer)
deriving DecidableEq, Repr

/-- Model of `query::dohgoogle::DohGoogleQueryProvider` (query.rs). -/
structure DohGoogleQueryProvider where
  url : String
  name_key : String
  timeout : Nat
deriving DecidableEq, Repr

/-- Model of `DohGoogleQueryProvider::query` (query.rs lines 42-69)
from the point where the HTTP body has been fetched and parsed:
`response` is the decoded body (an HTTP or JSON-decoding failure
before it would have propagated as an error).  Status 0 (NOERROR) and
3 (NXDOMAIN) are accepted; a null answer list yields zero
addresses. -/
def dohgoogle_query (p : DohGoogleQueryProvider) (response : DohGoogleResponse) :
    Except String (List IpAddr) :=
  if response.status ≠ 0 ∧ response.status ≠ 3 then
    .error ("status in response body of DohGoogle[" ++ p.url ++ ("] is: ")
      ++ toString response.status)
  else
    .ok (((response.answer.getD []).map (fun i => i.data)))

/-- The answer-extraction shared by the Dns/Dot/DohIetf providers
(query.rs lines 221-235): keep only A/AAAA record data. -/
def extract_ips (response : DnsResponse) : List IpAddr :=
  response.answers.filterMap (fun r =>
    match r.data with
    | some (.A ip) => some ip
    | some (.AAAA ip) => some ip
    | _ => none)

/-! Address providers, from ip.rs. -/

/-- Model of `ip::StaticIpProvider::query` (ip.rs lines 149-159):
return the configured literal, failing when its family does not match
the requested one. -/
def static_query (ip : IpAddr) (is_v6 : Bool) : Except String IpAddr :=
  if is_v6 && ip.is_ipv4 then .error ("ipv4 ip is provided in a v6 section")
  else if !is_v6 && ip.is_ipv6 then .error ("ipv6 ip is provided in a v4 section")
  else .ok ip

/-- Model of `ip::ifconfigio::IfconfigIoIpProvider` (ip.rs). -/
structure IfconfigIoIpProvider where
  url : String
  timeout : Nat
deriving DecidableEq, Repr

/-- Model of `IfconfigIoIpProvider::query` (ip.rs lines 25-45): `body`
is the outcome of the HTTP GET (the socket is bound to the unspecified
address of the requested family, which only influences what the
reflector reports); the trimmed body is parsed as an address literal
and its family is checked against the request. -/
def ifconfigio_query (p : IfconfigIoIpProvider) (is_v6 : Bool)
    (body : Except String String) : Except String IpAddr :=
  match body with
  | .error e => .error e
  | .ok text =>
    match parse_ip_addr (trimAsciiWhitespace text) with
    | none => .error ("invalid ip: " ++ text)
    | some ip =>
      if is_v6 && ip.is_ipv4 then
        .error ("query v6 from " ++ p.url ++ (", but got v4: ") ++ ipToString ip)
      else if !is_v6 && ip.is_ipv6 then
        .error ("query v4 from " ++ p.url ++ (", but got v6: ") ++ ipToString ip)
      else .ok ip

/-- Drop every leading and trailing `"` character, as
`str::trim_matches('"')` does. -/
def trim_quote_chars (s : String) : String :=
  let cs := s.toList.dropWhile (fun c => c = '"')
  String.mk (cs.reverse.dropWhile (fun c => c = '"')).reverse

/-- Model of `ip::sslipio::SslipIoIpProvider` (ip.rs). -/
structure SslipIoIpProvider where
  name_server_host : String
  name_server_port : Option Nat
  name : String
  timeout : Nat
deriving DecidableEq, Repr

/-- The per-answer extraction of `SslipIoIpProvider::query` (ip.rs
lines 75-107): concatenate the TXT chunks, strip surrounding quote
characters, parse as an address literal; a malformed record yields
none (a warning in the source) and a non-TXT record is skipped.  The
UTF-8 decoding step always succeeds in the `String` model. -/
def txt_answer_ip (r : DnsAnswer) : Option IpAddr :=
  match r.data with
  | some (.TXT chunks) => parse_ip_addr (trim_quote_chars (String.join chunks))
  | _ => none

/-- Model of `SslipIoIpProvider::query` (ip.rs lines 66-113): a TXT
query through `DnsClient` (UDP, `is_via_v6 = some is_v6`), then the
first answer that parses to an address literal — of either family —
is returned; `addrs` are the resolved name-server candidates and
`attempt` the transport oracle. -/
def sslipio_query (p : SslipIoIpProvider) (is_v6 : Bool)
    (addrs : List SocketAddr) (attempt : SocketAddr → Except String DnsResponse) :
    Except String IpAddr :=
  match do_query addrs (some is_v6) attempt p.name with
  | .error e => .error e
  | .ok response =>
    match (response.answers.filterMap txt_answer_ip).head? with
    | some ip => .ok ip
    | none => .error ("no ip resolved")

/-! Update providers, from update.rs. -/

/-- The subset of `reqwest::Method` values the HttpPlainBody factory
can produce (update.rs lines 340-347). -/
inductive Method where
  | POST
  | PUT
  | PATCH
deriving DecidableEq, Repr

/-- Model of `update::httpget::HttpGetUpdateProvider` (update.rs). -/
structure HttpGetUpdateProvider where
  credential : Option UpdateCredential
  url_template : String
deriving DecidableEq, Repr

/-- Model of `update::httpplainbody::HttpPlainBodyUpdateProvider`
(update.rs). -/
structure HttpPlainBodyUpdateProvider where
  credential : Option UpdateCredential
  url : String
  method : Method
  content_type : String
  body_template : String
deriving DecidableEq, Repr

/-- Model of `update::cloudflare::CloudflareUpdateProvider`
(update.rs lines 155-161). -/
structure CloudflareUpdateProvider where
  token : String
  zone_id : String
  proxied : Bool
  ttl : Option Nat
  comment : Option String
deriving DecidableEq, Repr

/-- Model of `update::cloudflare::DnsRecord` (update.rs lines
110-120): the Cloudflare DNS-record JSON object. -/
structure DnsRecord where
  comment : Option String
  name : String
  proxied : Bool
  ttl : Nat
  content : String
  record_type : String
  id : Option String
deriving DecidableEq, Repr

/-- Model of `CloudflareUpdateProvider::record_type` (update.rs lines
169-175). -/
def cf_record_type (is_v6 : Bool) : String :=
  if is_v6 then ("AAAA") else ("A")

/-- The change test of `CloudflareUpdateProvider`'s `UpdateProvider`
impl (update.rs lines 281-288): content, proxied or comment differ, or
a configured ttl differs while not proxied (with proxied, the ttl
can't be changed upstream, so it is not compared). -/
def cf_needs_update (p : CloudflareUpdateProvider) (old : DnsRecord) (ip : IpAddr) :
    Bool :=
  old.content != ipToString ip
    || old.proxied != p.proxied
    || (p.ttl.map (fun t => !p.proxied && t != old.ttl)).getD false
    || p.comment != old.comment

/-- The record built by `CloudflareUpdateProvider::create` (update.rs
lines 222-230): ttl defaults to 300 when none is configured. -/
def cf_create_record (p : CloudflareUpdateProvider) (name : String) (ip : IpAddr) :
    DnsRecord :=
  { comment := p.comment
    name := name
    proxied := p.proxied
    ttl := p.ttl.getD 300
    content := ipToString ip
    record_type := cf_record_type ip.is_ipv6
    id := none }

/-- The merged record built by `CloudflareUpdateProvider::update`
(update.rs lines 243-262) after `old.id.take()`: overwrite proxied and
content, overwrite ttl only when the (new) proxied flag is off and a
ttl is configured, overwrite comment. -/
def cf_merged_record (p : CloudflareUpdateProvider) (old : DnsRecord) (ip : IpAddr) :
    DnsRecord :=
  { old with
    id := none
    proxied := p.proxied
    content := ipToString ip
    ttl := if !p.proxied then p.ttl.getD old.ttl else old.ttl
    comment := p.comment }

/-- Outcome of one `CloudflareUpdateProvider::update` cycle: the
`Result<bool>` value, the PUT that was issued (record id and payload)
if any, and the POST payload that was issued if any. -/
structure CfUpdateOutcome where
  result : Except String Bool
  update_issued : Option (String × DnsRecord)
  create_issued : Option DnsRecord
deriving Repr

/-- Model of the `UpdateProvider` impl for `CloudflareUpdateProvider`
(update.rs lines 276-299): `query_result` is the outcome of listing
the existing record, `update_call` / `create_call` the outcomes of the
PUT / POST envelopes when those requests are sent.  An existing record
is rewritten only when `cf_needs_update` holds (the inner update first
insists on a record id); a missing record is created. -/
def cloudflare_update (p : CloudflareUpdateProvider) (name : String) (ip : IpAddr)
    (query_result : Except String (Option DnsRecord))
    (update_call : Except String Unit) (create_call : Except String Unit) :
    CfUpdateOutcome :=
  match query_result with
  | .error e => ⟨.error e, none, none⟩
  | .ok (some old) =>
    if cf_needs_update p old ip then
      match old.id with
      | none => ⟨.error ("no id in old dns record"), none, none⟩
      | some i =>
        let merged := cf_merged_record p { old with id := none } ip
        match update_call with
        | .error e => ⟨.error e, some (i, merged), none⟩
        | .ok _ => ⟨.ok true, some (i, merged), none⟩
    else ⟨.ok false, none, none⟩
  | .ok none =>
    match create_call with
    | .error e => ⟨.error e, none, some (cf_create_record p name ip)⟩
    | .ok _ => ⟨.ok true, none, some (cf_create_record p name ip)⟩

/-- The constructed strategy objects `init_update_provider` can box
(update.rs). -/
inductive UpdateProviderValue where
  | HttpGet (provider : HttpGetUpdateProvider)
  | HttpPlainBody (provider : HttpPlainBodyUpdateProvider)
  | Cloudflare (provider : CloudflareUpdateProvider)
deriving DecidableEq, Repr

/-- The update-provider configuration variants that the `match` in
`update::init_update_provider` (update.rs lines 321-378) handles:
HttpGet, HttpPlainBody and Cloudflare.  The enum actually declared in
config.rs (`UpdateProviderType` above) lacks the `Cloudflare` variant
this match requires, so the variant set demanded by update.rs is a
separate type here. -/
inductive UpdateRsProviderType where
  | HttpGet (credential : Option String) (url_template : String)
  | HttpPlainBody (credential : Option String) (url : String) (method : String)
      (content_type : String) (body_template : String)
  | Cloudflare (credential : String) (zone_id : String) (proxied : Option Bool)
      (ttl : Option Nat) (comment : Option String)
deriving DecidableEq, Repr

/-- Model of `update::find_update_credential` (update.rs lines
313-319). -/
def find_update_credential (config : Config) (credential : String) :
    Except String UpdateCredential :=
  match config.get_credential credential with
  | some c => .ok c
  | none => .error ("Credential not found: " ++ credential)

/-- Model of `update::find_optional_update_credential` (update.rs
lines 302-311). -/
def find_optional_update_credential (config : Config) (credential : Option String) :
    Except String (Option UpdateCredential) :=
  match credential with
  | some c =>
    match find_update_credential config c with
    | .ok c => .ok (some c)
    | .error e => .error e
  | none => .ok none

/-- Model of `update::init_update_provider` (update.rs lines 321-378)
over the variant set its match requires: resolve credentials, check
the HttpPlainBody method, and for Cloudflare insist on a bearer-token
credential and default `proxied` to false. -/
def init_update_provider (update_provider_type : UpdateRsProviderType)
    (config : Config) : Except String UpdateProviderValue :=
  match update_provider_type with
  | .HttpGet credential url_template =>
    match find_optional_update_credential config credential with
    | .error e => .error e
    | .ok c => .ok (.HttpGet ⟨c, url_template⟩)
  | .HttpPlainBody credential url method content_type body_template =>
    let m : Except String Method :=
      if toUpperAscii method = ("POST") then .ok .POST
      else if toUpperAscii method = ("PUT") then .ok .PUT
      else if toUpperAscii method = ("PATCH") then .ok .PATCH
      else .error ("Unsupport method in HttpPlainBody: " ++ method)
    match m with
    | .error e => .error e
    | .ok m =>
      match find_optional_update_credential config credential with
      | .error e => .error e
      | .ok c => .ok (.HttpPlainBody ⟨c, url, m, content_type, body_template⟩)
  | .Cloudflare credential zone_id proxied ttl comment =>
    match find_update_credential config credential with
    | .error e => .error e
    | .ok (.HttpBasicAuth _) =>
      .error ("Only HttpBearerToken credential is supported when cloudflare is used.")
    | .ok (.HttpBearerToken token) =>
      .ok (.Cloudflare ⟨token, zone_id, proxied.getD false, ttl, comment⟩)

/-! Specification restatement used for the shared-fallback refinement
claim, plus concrete scenario values used to instantiate the
theorems. -/

/-- The shared-fallback rule stated in the spec's words, for
comparison with `effective_providers_conf`: use the family's own block
if present; otherwise, if `shared` is true, use the other family's
block; in either case the resulting block must also be enabled to be
used. -/
def effective_providers_conf_spec (own other : Option NameProvidersConf)
    (shared : Bool) : Option NameProvidersConf :=
  match own with
  | some c => if c.enabled then some c else none
  | none =>
    if shared then
      match other with
      | some c => if c.enabled then some c else none
      | none => none
    else none

/-- Scenario query-provider configuration. -/
def provQ : QueryProviderType := .Dns ⟨("ns.example"), none, none, none⟩

/-- Scenario address-provider configuration. -/
def provI : IpProviderType := .Static (.v4 1 2 3 4)

/-- Scenario update-provider configuration. -/
def provU : UpdateProviderType := .HttpGet none ("http://upd.example")

/-- Scenario per-family provider block, enabled. -/
def pcOn : NameProvidersConf := ⟨provU, provQ, provI, true⟩

/-- Scenario per-family provider block, disabled. -/
def pcOff : NameProvidersConf := ⟨provU, provQ, provI, false⟩

/-- Scenario name configuration: v4 only, one-hour interval. -/
def confW : NameConf := ⟨("a.example"), 3600, false, some pcOn, none⟩

/-- Scenario oracle where every provider call succeeds and the update
reports a change. -/
def okOracle : RenewOracle :=
  ⟨.ok (), .ok [], .ok (), .ok (.v4 1 2 3 4), .ok (), .ok true⟩

/-- Scenario oracle where the published-address query fails. -/
def errOracle : RenewOracle :=
  ⟨.ok (), .error ("boom"), .ok (), .ok (.v4 1 2 3 4), .ok (), .ok true⟩

/-- Scenario oracle where the published set already contains the
current address. -/
def idleOracle : RenewOracle :=
  ⟨.ok (), .ok [.v4 1 2 3 4], .ok (), .ok (.v4 1 2 3 4), .ok (), .error ("unreached")⟩

/-- Scenario name-server candidate, IPv4. -/
def cand1 : SocketAddr := ⟨.v4 9 9 9 9, 53⟩

/-- Scenario second name-server candidate, IPv4. -/
def cand2 : SocketAddr := ⟨.v4 8 8 8 8, 53⟩

/-- Scenario DNS response with one A answer. -/
def respW : DnsResponse := ⟨[⟨some (.A (.v4 5 6 7 8))⟩]⟩

/-- Scenario transport oracle that always fails. -/
def attFail : SocketAddr → Except String DnsResponse :=
  fun _ => .error ("connection refused")

/-- Scenario transport oracle failing on the first candidate and
succeeding on the second. -/
def attSecond : SocketAddr → Except String DnsResponse :=
  fun a => if a = cand1 then .error ("connection refused") else .ok respW

/-- Scenario Cloudflare provider: proxied, with a configured ttl. -/
def cfW : CloudflareUpdateProvider := ⟨("tok"), ("zone"), true, some 600, none⟩

/-- Scenario existing Cloudflare record matching `cfW` except for
ttl. -/
def oldW : DnsRecord :=
  ⟨none, ("a.example"), true, 300, ("1.2.3.4"), ("A"), some ("rid")⟩

/-- Scenario persisted state carrying a stale name and a far-future
deadline. -/
def stateOld : NameState := ⟨("old.example"), 999999999⟩

/-- Scenario name configuration after a rename. -/
def confRen : NameConf := ⟨("new.example"), 60, false, none, none⟩

/-- Scenario DohGoogle provider. -/
def dohW : DohGoogleQueryProvider := ⟨("https://dns.google/resolve"), ("name"), 10000⟩

/-- Scenario DohGoogle body: NXDOMAIN with a null answer list. -/
def respStatus3 : DohGoogleResponse := ⟨3, none⟩

/-- Scenario SslipIo provider. -/
def sslipW : SslipIoIpProvider := ⟨("ns.sslip.io"), none, ("myip.sslip.io"), 10000⟩

/-- Scenario IPv6 name-server candidate. -/
def nsV6Addr : SocketAddr := ⟨.v6 8193 3512 0 0 0 0 0 1, 53⟩

/-- Scenario transport oracle answering with a TXT record whose two
chunks concatenate to a quoted IPv4 literal. -/
def attTxt : SocketAddr → Except String DnsResponse :=
  fun _ => .ok ⟨[⟨some (.TXT [("\"1.2."), ("3.4\"")])⟩]⟩

/-- Scenario ifconfig.io provider. -/
def ifconfigW : IfconfigIoIpProvider := ⟨("https://ifconfig.io"), 10000⟩

/-! Helper lemmas shared by several results. -/

lemma read_state_cases (stored : Option NameState) (conf : NameConf) (now : Nat) :
    read_state stored conf now = none ∨
    read_state stored conf now = some ⟨conf.name, now + conf.renew_interval⟩ := by
  unfold read_state next
  cases stored with
  | none => right; rfl
  | some s =>
    by_cases h1 : s.name ≠ conf.name
    · simp [h1]
    · by_cases h2 : s.next > now
      · simp [h1, h2]
      · simp [h1, h2]

lemma renew_name_not_due (stored : Option NameState) (conf : NameConf) (now : Nat)
    (o4 o6 : RenewOracle) (h : read_state stored conf now = none) :
    renew_name stored conf now o4 o6 = ⟨.ok none, stored⟩ := by
  unfold renew_name
  rw [h]

lemma renew_name_due (stored : Option NameState) (conf : NameConf) (now : Nat)
    (o4 o6 : RenewOracle) (st : NameState)
    (h : read_state stored conf now = some st) :
    renew_name stored conf now o4 o6 =
      match (match effective_providers_conf conf.v4 conf.v6 conf.shared with
             | some _ => (renew o4).result
             | none => .ok false) with
      | .error e => ⟨.error e, stored⟩
      | .ok u4 =>
        match (match effective_providers_conf conf.v6 conf.v4 conf.shared with
               | some _ => (renew o6).result
               | none => .ok false) with
        | .error e => ⟨.error e, stored⟩
        | .ok u6 =>
          ⟨.ok (if !(u4 || u6) then none else some conf.name), some st⟩ := by
  unfold renew_name
  rw [h]

end DnsRenew

namespace DnsRenew

/-- C7: for every persisted NameState whose stored name differs from
the configured name, read_state treats the name as immediately due and
returns a fresh state with next = now + renew_interval, regardless of
the stored next deadline. -/
theorem read_state_rename_forces_due (st : NameState) (conf : NameConf) (now : Nat)
    (h : st.name ≠ conf.name) :
    read_state (some st) conf now = some ⟨conf.name, now + conf.renew_interval⟩ := by
  simp [read_state, next, h]

/-- C7 witness: a stored state named old.example with a far-future
deadline is still immediately due under the configuration named
new.example. -/
theorem read_state_rename_forces_due_witness :
    read_state (some stateOld) confRen 100 = some ⟨("new.example"), 160⟩ :=
  read_state_rename_forces_due stateOld confRen 100 (by decide)

/-- C9: every NameState produced for persistence carries
next = now + renew_interval: read_state stamps it on every due path,
and whenever renew_name changes the state file it writes exactly that
fresh state, never the previously stored next. -/
theorem name_state_next_is_fresh (stored : Option NameState) (conf : NameConf)
    (now : Nat) :
    (∀ st, read_state stored conf now = some st →
      st.name = conf.name ∧ st.next = now + conf.renew_interval) ∧
    (∀ o4 o6, (renew_name stored conf now o4 o6).state_file ≠ stored →
      (renew_name stored conf now o4 o6).state_file
        = some ⟨conf.name, now + conf.renew_interval⟩) := by
  constructor
  · intro st h
    rcases read_state_cases stored conf now with h' | h'
    · rw [h] at h'; cases h'
    · rw [h] at h'
      cases h'
      exact ⟨rfl, rfl⟩
  · intro o4 o6 h
    rcases read_state_cases stored conf now with h' | h'
    · rw [renew_name_not_due stored conf now o4 o6 h'] at h
      simp at h
    · rw [renew_name_due stored conf now o4 o6 _ h'] at h ⊢
      split at h
      · simp at h
      · split at h
        · simp at h
        · exact rfl

/-- C9 witness: with no prior state, interval 3600 and now 1000, a
successful cycle writes next = 4600. -/
theorem name_state_next_is_fresh_witness :
    read_state none confW 1000 = some ⟨("a.example"), 4600⟩ ∧
    (⟨("a.example"), (4600 : Nat)⟩ : NameState).next = 1000 + confW.renew_interval :=
  ⟨rfl, ((name_state_next_is_fresh none confW 1000).1 ⟨("a.example"), 4600⟩ rfl).2⟩

/-- C4: the per-family effective provider block equals the spec's
shared-fallback rule: the family's own block when present, otherwise
the other family's block when shared, otherwise none, and the
resulting block is used only when enabled; in particular a disabled
fallback block is not used, and a present-but-disabled own block does
not fall back to the other family. -/
theorem effective_conf_shared_fallback (own other : Option NameProvidersConf)
    (shared : Bool) :
    effective_providers_conf own other shared
      = effective_providers_conf_spec own other shared ∧
    (∀ c, own = none → other = some c → c.enabled = false →
      effective_providers_conf own other shared = none) ∧
    (∀ c, own = some c → c.enabled = false →
      effective_providers_conf own other shared = none) := by
  refine ⟨?_, ?_, ?_⟩
  · cases own with
    | some c =>
      cases hc : c.enabled <;>
        simp [effective_providers_conf, effective_providers_conf_spec, Option.orElse,
          Option.filter, hc]
    | none =>
      cases shared <;> cases other <;>
        simp [effective_providers_conf, effective_providers_conf_spec, Option.orElse,
          Option.filter]
  · intro c hown hother hc
    subst hown; subst hother
    cases shared <;>
      simp [effective_providers_conf, Option.orElse, Option.filter, hc]
  · intro c hown hc
    subst hown
    simp [effective_providers_conf, Option.orElse, Option.filter, hc]

/-- C4 witness: a disabled fallback block yields no effective
configuration, and a present-but-disabled own block yields none even
though the other family's block is enabled. -/
theorem effective_conf_shared_fallback_witness :
    effective_providers_conf none (some pcOff) true = none ∧
    effective_providers_conf (some pcOff) (some pcOn) true = none :=
  ⟨(effective_conf_shared_fallback none (some pcOff) true).2.1 pcOff rfl rfl rfl,
   (effective_conf_shared_fallback (some pcOff) (some pcOn) true).2.2 pcOff rfl rfl⟩

/-- C5: when the published address set already contains the current
true address, renew returns false and the update provider is never
invoked. -/
theorem renew_no_update_when_published (o : RenewOracle) (ips : List IpAddr)
    (ip : IpAddr)
    (h1 : o.init_query_provider = .ok ()) (h2 : o.query = .ok ips)
    (h3 : o.init_ip_provider = .ok ()) (h4 : o.ip_query = .ok ip)
    (h5 : ips.contains ip = true) :
    (renew o).result = .ok false ∧ (renew o).update_invoked = false := by
  unfold renew
  rw [h1, h2, h3, h4]
  have h5' : ip ∈ ips := by simpa using h5
  simp [h5']

/-- C5 witness: published = [1.2.3.4], current = 1.2.3.4 — renew
reports false and the update provider is untouched even though its
oracle would fail. -/
theorem renew_no_update_when_published_witness :
    (renew idleOracle).result = .ok false ∧ (renew idleOracle).update_invoked = false :=
  renew_no_update_when_published idleOracle [.v4 1 2 3 4] (.v4 1 2 3 4)
    rfl rfl rfl rfl (by decide)

/-- C8: a DohGoogle body with status 0 or 3 is accepted and any other
status is an error naming the endpoint and status; a null answer list
yields zero addresses instead of an error, and a present answer list
yields the data field of every entry. -/
theorem dohgoogle_status_and_null_answer (p : DohGoogleQueryProvider)
    (r : DohGoogleResponse) :
    ((r.status = 0 ∨ r.status = 3) →
      dohgoogle_query p r = .ok ((r.answer.getD []).map (fun i => i.data))) ∧
    (r.status ≠ 0 → r.status ≠ 3 →
      dohgoogle_query p r = .error ("status in response body of DohGoogle[" ++ p.url
        ++ ("] is: ") ++ toString r.status)) ∧
    ((r.status = 0 ∨ r.status = 3) → r.answer = none → dohgoogle_query p r = .ok []) ∧
    (∀ answers, (r.status = 0 ∨ r.status = 3) → r.answer = some answers →
      dohgoogle_query p r = .ok (answers.map (fun i => i.data))) := by
    refine ⟨?_, ?_, ?_, ?_⟩
    · intro h
      rcases h with h | h <;> simp [dohgoogle_query, h]
    · intro h0 h3
      simp [dohgoogle_query, h0, h3]
    · intro h ha
      rcases h with h | h <;> simp [dohgoogle_query, h, ha]
    · intro answers h ha
      rcases h with h | h <;> simp [dohgoogle_query, h, ha]

/-- C8 witness: a status-3 body with a null answer list yields the
empty address list. -/
theorem dohgoogle_status_and_null_answer_witness :
    dohgoogle_query dohW respStatus3 = .ok [] :=
  (dohgoogle_status_and_null_answer dohW respStatus3).2.2.1 (Or.inr rfl) rfl

/-- C1: renew_name persists the fresh NameState only when every step
of the due cycle succeeded: an error outcome leaves the state file
untouched, a success writes exactly the fresh state, and a failing
renew step for either family surfaces as that error. -/
theorem renew_name_persistence_gated_on_success (stored : Option NameState)
    (conf : NameConf) (now : Nat) (o4 o6 : RenewOracle) :
    (∀ e, (renew_name stored conf now o4 o6).result = .error e →
      (renew_name stored conf now o4 o6).state_file = stored) ∧
    (∀ st x, read_state stored conf now = some st →
      (renew_name stored conf now o4 o6).result = .ok x →
      (renew_name stored conf now o4 o6).state_file = some st) ∧
    (∀ st e, read_state stored conf now = some st →
      effective_providers_conf conf.v4 conf.v6 conf.shared ≠ none →
      (renew o4).result = .error e →
      (renew_name stored conf now o4 o6).result = .error e) ∧
    (∀ st e u, read_state stored conf now = some st →
      (effective_providers_conf conf.v4 conf.v6 conf.shared = none ∨
        (renew o4).result = .ok u) →
      effective_providers_conf conf.v6 conf.v4 conf.shared ≠ none →
      (renew o6).result = .error e →
      (renew_name stored conf now o4 o6).result = .error e) := by
  refine ⟨?_, ?_, ?_, ?_⟩
  · intro e h
    rcases read_state_cases stored conf now with h' | h'
    · rw [renew_name_not_due stored conf now o4 o6 h']
    · rw [renew_name_due stored conf now o4 o6 _ h'] at h ⊢
      split at h
      · rfl
      · split at h
        · rfl
        · simp at h
  · intro st x hr h
    rw [renew_name_due stored conf now o4 o6 st hr] at h ⊢
    split at h
    · simp at h
    · split at h
      · simp at h
      · rfl
  · intro st e hr hne h4
    rw [renew_name_due stored conf now o4 o6 st hr]
    cases hE : effective_providers_conf conf.v4 conf.v6 conf.shared with
    | none => exact absurd hE hne
    | some c => simp [hE, h4]
  · intro st e u hr h4 hne h6
    rw [renew_name_due stored conf now o4 o6 st hr]
    cases hE6 : effective_providers_conf conf.v6 conf.v4 conf.shared with
    | none => exact absurd hE6 hne
    | some c =>
      rcases h4 with h4 | h4
      · simp [h4, hE6, h6]
      · cases hE4 : effective_providers_conf conf.v4 conf.v6 conf.shared <;>
          simp [hE4, h4, hE6, h6]

/-- C1 witness: with the scenario configuration, a failing query
oracle leaves the state file absent and returns its error, while the
all-success oracle writes the fresh state. -/
theorem renew_name_persistence_gated_on_success_witness :
    (renew_name none confW 1000 errOracle okOracle).state_file = none ∧
    (renew_name none confW 1000 errOracle okOracle).result = .error ("boom") ∧
    (renew_name none confW 1000 okOracle okOracle).state_file
      = some ⟨("a.example"), 4600⟩ :=
  ⟨(renew_name_persistence_gated_on_success none confW 1000 errOracle okOracle).1
      ("boom")
      ((renew_name_persistence_gated_on_success none confW 1000 errOracle okOracle).2.2.1
        ⟨("a.example"), 4600⟩ ("boom") rfl (by decide) rfl),
   (renew_name_persistence_gated_on_success none confW 1000 errOracle okOracle).2.2.1
      ⟨("a.example"), 4600⟩ ("boom") rfl (by decide) rfl,
   (renew_name_persistence_gated_on_success none confW 1000 okOracle okOracle).2.1
      ⟨("a.example"), 4600⟩ (some ("a.example")) rfl rfl⟩

end DnsRenew

namespace DnsRenew

lemma query_loop_all_fail (attempt : SocketAddr → Except String DnsResponse)
    (name : String) (l : List SocketAddr)
    (h : ∀ a ∈ l, (attempt a).isOk = false) :
    query_loop attempt name l true
      = .error ("failed to resolve name[" ++ name ++ "]") := by
  induction l with
  | nil => rfl
  | cons a rest ih =>
    have ha := h a (by simp)
    cases hA : attempt a with
    | ok r => rw [hA] at ha; simp [Except.isOk, Except.toBool] at ha
    | error e =>
      simp only [query_loop, hA]
      exact ih (fun b hb => h b (by simp [hb]))

lemma query_loop_first_success (attempt : SocketAddr → Except String DnsResponse)
    (name : String) (pre : List SocketAddr) (a : SocketAddr)
    (post : List SocketAddr) (r : DnsResponse)
    (hpre : ∀ b ∈ pre, (attempt b).isOk = false) (ha : attempt a = .ok r) :
    ∀ tried, query_loop attempt name (pre ++ a :: post) tried = .ok r := by
  induction pre with
  | nil => intro tried; simp only [List.nil_append, query_loop, ha]
  | cons b rest ih =>
    intro tried
    have hb := hpre b (by simp)
    cases hB : attempt b with
    | ok s => rw [hB] at hb; simp [Except.isOk, Except.toBool] at hb
    | error e =>
      simp only [List.cons_append, query_loop, hB]
      exact ih (fun c hc => hpre c (by simp [hc])) true

/-- C3: if at least one candidate passes the family filter and every
filtered candidate's transport attempt fails, do_query fails with the
error naming the queried name; if the filter leaves no candidate,
do_query succeeds with the empty answer set; and the first candidate
whose attempt succeeds short-circuits the loop with its response. -/
theorem do_query_fallback_and_empty_filter (addrs : List SocketAddr)
    (fam : Option Bool) (attempt : SocketAddr → Except String DnsResponse)
    (name : String) :
    (addrs.filter (family_filter fam) ≠ [] →
      (∀ a ∈ addrs.filter (family_filter fam), (attempt a).isOk = false) →
      do_query addrs fam attempt name
        = .error ("failed to resolve name[" ++ name ++ "]")) ∧
    (addrs.filter (family_filter fam) = [] →
      do_query addrs fam attempt name = .ok emptyDnsResponse) ∧
    (∀ pre a post r, addrs.filter (family_filter fam) = pre ++ a :: post →
      (∀ b ∈ pre, (attempt b).isOk = false) →
      attempt a = .ok r →
      do_query addrs fam attempt name = .ok r) := by
  refine ⟨?_, ?_, ?_⟩
  · intro hne hall
    unfold do_query
    cases hl : addrs.filter (family_filter fam) with
    | nil => exact absurd hl hne
    | cons a rest =>
      rw [hl] at hall
      have ha := hall a (by simp)
      cases hA : attempt a with
      | ok r => rw [hA] at ha; simp [Except.isOk, Except.toBool] at ha
      | error e =>
        simp only [query_loop, hA]
        exact query_loop_all_fail attempt name rest
          (fun b hb => hall b (by simp [hb]))
  · intro hl
    unfold do_query
    rw [hl]
    rfl
  · intro pre a post r hl hpre ha
    unfold do_query
    rw [hl]
    exact query_loop_first_success attempt name pre a post r hpre ha false

/-- C3 witness: both candidates failing yields the aggregated error; a
v6-only filter over v4 candidates yields the empty success; and with
the first candidate failing the second's response is returned. -/
theorem do_query_fallback_and_empty_filter_witness :
    do_query [cand1, cand2] none attFail ("h.example")
      = .error ("failed to resolve name[h.example]") ∧
    do_query [cand1, cand2] (some true) attFail ("h.example")
      = .ok emptyDnsResponse ∧
    do_query [cand1, cand2] none attSecond ("h.example") = .ok respW :=
  ⟨(do_query_fallback_and_empty_filter [cand1, cand2] none attFail ("h.example")).1
      (by decide) (by decide),
   (do_query_fallback_and_empty_filter [cand1, cand2] (some true) attFail
      ("h.example")).2.1 (by decide),
   (do_query_fallback_and_empty_filter [cand1, cand2] none attSecond
      ("h.example")).2.2 [cand1] cand2 [] respW (by decide) (by decide) rfl⟩

/-- C6: with an existing record, the Cloudflare update rewrites it
exactly when content, proxied or comment differ, or a ttl is
configured that differs from the record's while proxied is false; in
particular a differing ttl under proxied = true issues no update call
and reports false; with no existing record one is created, with ttl
defaulting to 300, and true is reported. -/
theorem cloudflare_update_change_detection (p : CloudflareUpdateProvider)
    (name : String) (ip : IpAddr) (old : DnsRecord) (i : String)
    (hid : old.id = some i) :
    ((cloudflare_update p name ip (.ok (some old)) (.ok ()) (.ok ())).result
        = .ok (cf_needs_update p old ip)) ∧
    ((cloudflare_update p name ip (.ok (some old)) (.ok ())
        (.ok ())).update_issued.isSome = cf_needs_update p old ip) ∧
    (cf_needs_update p old ip = true ↔
      old.content ≠ ipToString ip ∨ old.proxied ≠ p.proxied ∨
        p.comment ≠ old.comment ∨
        ∃ t, p.ttl = some t ∧ p.proxied = false ∧ t ≠ old.ttl) ∧
    (p.proxied = true → old.proxied = true → old.content = ipToString ip →
      p.comment = old.comment →
      (cloudflare_update p name ip (.ok (some old)) (.ok ()) (.ok ())).result
          = .ok false ∧
      (cloudflare_update p name ip (.ok (some old)) (.ok ()) (.ok ())).update_issued
          = none) ∧
    ((cloudflare_update p name ip (.ok none) (.ok ()) (.ok ())).result = .ok true ∧
      (cloudflare_update p name ip (.ok none) (.ok ()) (.ok ())).create_issued
        = some (cf_create_record p name ip) ∧
      (p.ttl = none → (cf_create_record p name ip).ttl = 300)) := by
  have hchar : cf_needs_update p old ip = true ↔
      old.content ≠ ipToString ip ∨ old.proxied ≠ p.proxied ∨
        p.comment ≠ old.comment ∨
        ∃ t, p.ttl = some t ∧ p.proxied = false ∧ t ≠ old.ttl := by
    cases hp : p.ttl with
    | none =>
      simp [cf_needs_update, hp, bne_iff_ne]
      tauto
    | some t =>
      simp [cf_needs_update, hp, bne_iff_ne, Bool.not_eq_true']
      tauto
  refine ⟨?_, ?_, hchar, ?_, ?_⟩
  · cases hnu : cf_needs_update p old ip <;>
      simp [cloudflare_update, hnu, hid]
  · cases hnu : cf_needs_update p old ip <;>
      simp [cloudflare_update, hnu, hid]
  · intro h1 h2 h3 h4
    have hfalse : cf_needs_update p old ip = false := by
      cases hp : p.ttl with
      | none => simp [cf_needs_update, hp, h1, h2, h3, h4]
      | some t => simp [cf_needs_update, hp, h1, h2, h3, h4]
    constructor <;> simp [cloudflare_update, hfalse]
  · refine ⟨rfl, rfl, ?_⟩
    intro h
    simp [cf_create_record, h]

/-- C6 witness: proxied record, configured ttl 600 against stored ttl
300, identical content, proxied and comment — no update is issued and
the call reports false. -/
theorem cloudflare_update_change_detection_witness :
    (cloudflare_update cfW ("a.example") (.v4 1 2 3 4) (.ok (some oldW)) (.ok ())
        (.ok ())).result = .ok false ∧
    (cloudflare_update cfW ("a.example") (.v4 1 2 3 4) (.ok (some oldW)) (.ok ())
        (.ok ())).update_issued = none :=
  (cloudflare_update_change_detection cfW ("a.example") (.v4 1 2 3 4) oldW ("rid")
    rfl).2.2.2.1 rfl rfl (by decide) rfl

/-- C10: the SslipIo provider returns the first parseable TXT address
as-is without checking its family — a v6-requested call can return an
IPv4 address — while the Static and IfconfigIo providers fail whenever
the produced address's family mismatches the requested one. -/
theorem sslipio_ignores_family_static_ifconfig_check (ip parsed : IpAddr)
    (is_v6 : Bool) (p : IfconfigIoIpProvider) (text : String)
    (sp : SslipIoIpProvider) (addrs : List SocketAddr)
    (attempt : SocketAddr → Except String DnsResponse) (resp : DnsResponse)
    (ip0 : IpAddr) :
    (sslipio_query sslipW true [nsV6Addr] attTxt = .ok (.v4 1 2 3 4)) ∧
    (do_query addrs (some is_v6) attempt sp.name = .ok resp →
      (resp.answers.filterMap txt_answer_ip).head? = some ip0 →
      sslipio_query sp is_v6 addrs attempt = .ok ip0) ∧
    (((is_v6 && ip.is_ipv4) || (!is_v6 && ip.is_ipv6)) = true →
      (static_query ip is_v6).isOk = false) ∧
    (parse_ip_addr (trimAsciiWhitespace text) = some parsed →
      ((is_v6 && parsed.is_ipv4) || (!is_v6 && parsed.is_ipv6)) = true →
      (ifconfigio_query p is_v6 (.ok text)).isOk = false) := by
  refine ⟨rfl, ?_, ?_, ?_⟩
  · intro h1 h2
    simp only [sslipio_query, h1, h2]
  · intro h
    cases ip <;> cases is_v6 <;>
      simp_all [static_query, IpAddr.is_ipv4, IpAddr.is_ipv6, Except.isOk,
        Except.toBool]
  · intro hp h
    simp only [ifconfigio_query]
    rw [hp]
    cases parsed <;> cases is_v6 <;>
      simp_all [IpAddr.is_ipv4, IpAddr.is_ipv6, Except.isOk, Except.toBool]

/-- C10 witness: a v6-section static IPv6 literal fails a v4 request,
and ifconfig.io returning an IPv4 literal fails a v6 request. -/
theorem sslipio_ignores_family_static_ifconfig_check_witness :
    (static_query (.v6 0 0 0 0 0 0 0 1) false).isOk = false ∧
    (ifconfigio_query ifconfigW true (.ok ("1.2.3.4"))).isOk = false :=
  ⟨(sslipio_ignores_family_static_ifconfig_check (.v6 0 0 0 0 0 0 0 1) (.v4 1 2 3 4)
      false ifconfigW ("1.2.3.4") sslipW [] attTxt emptyDnsResponse
      (.v4 1 2 3 4)).2.2.1 (by decide),
   (sslipio_ignores_family_static_ifconfig_check (.v6 0 0 0 0 0 0 0 1) (.v4 1 2 3 4)
      true ifconfigW ("1.2.3.4") sslipW [] attTxt emptyDnsResponse
      (.v4 1 2 3 4)).2.2.2 (by decide) (by decide)⟩

/-- C2: the update-provider configuration enum declared in config.rs
is a closed sum of exactly two variants, HttpGet and HttpPlainBody —
it has no Cloudflare variant — while the factory match in update.rs
handles three variants and does construct a provider from each,
including Cloudflare. -/
theorem update_provider_variant_mismatch :
    (∀ t : UpdateProviderType,
      (∃ c u, t = .HttpGet c u) ∨
      (∃ c u m ct b, t = .HttpPlainBody c u m ct b)) ∧
    (init_update_provider (.Cloudflare ("cf") ("zone") none none none)
        ⟨("d1"), ("d2"), [(("cf"), .HttpBearerToken ("tok"))]⟩
      = .ok (.Cloudflare ⟨("tok"), ("zone"), false, none, none⟩)) ∧
    (init_update_provider (.HttpGet none ("http://u")) ⟨("d1"), ("d2"), []⟩
      = .ok (.HttpGet ⟨none, ("http://u")⟩)) ∧
    (init_update_provider (.HttpPlainBody none ("http://u") ("post") ("ct") ("b"))
        ⟨("d1"), ("d2"), []⟩
      = .ok (.HttpPlainBody ⟨none, ("http://u"), .POST, ("ct"), ("b")⟩)) := by
  refine ⟨?_, rfl, rfl, rfl⟩
  intro t
  cases t with
  | HttpGet c u => exact Or.inl ⟨c, u, rfl⟩
  | HttpPlainBody c u m ct b => exact Or.inr ⟨c, u, m, ct, b, rfl⟩

end DnsRenew
